import Mathlib

/-!
Verification of the geospatial demonstration program.

The program connects to a RethinkDB document store, sets up a table with a
geospatial index, inserts five fixed point records, and issues three
variants of a nearest-neighbor query.  The store itself (geodesic distance
computation, index maintenance, query execution) is an external dependency,
out of scope per the specification; it is modelled here from the spec's
description of its primitive, parameterized by the distance function it
computes.  Coordinates and distances are embedded as exact rationals.
-/

/-- A geographic coordinate (`types.Point` in the source): longitude and
latitude in degrees. -/
structure Point where
  lon : ℚ
  lat : ℚ
deriving DecidableEq

/-- A stored record (`Record` in the source): a name and one point
attribute (field tag `area`). -/
structure Record where
  name : String
  geoSpatial : Point
deriving DecidableEq

/-- A distance-annotated query result (`RecordWithDistance` in the source):
the store-computed distance paired with the matched record. -/
structure RecordWithDistance where
  dist : ℚ
  doc : Record
deriving DecidableEq

def DBName : String := "test"

def tableName : String := "geospatial"

def indexName : String := "area"

/-- Seed record "first". -/
def rec1 : Record := ⟨"first", ⟨-122.423246, 37.77929790366427⟩⟩

/-- Seed record "second". -/
def rec2 : Record := ⟨"second", ⟨-122.42326814543915, 37.77929963483801⟩⟩

/-- Seed record "third". -/
def rec3 : Record := ⟨"third", ⟨-122.4232894398445, 37.779304761831504⟩⟩

/-- Seed record "fourth". -/
def rec4 : Record := ⟨"fourth", ⟨-122.423246, 37.779478096334365⟩⟩

/-- Seed record "fifth". -/
def rec5 : Record := ⟨"fifth", ⟨-124.423246, 37.779478096334365⟩⟩

/-- The fixed five-element seed list (`records` in the source), in source
order. -/
def records : List Record := [rec1, rec2, rec3, rec4, rec5]

/-- The fixed reference point passed to every `GetNearest` call in the
source. -/
def refPoint : Point := ⟨-122.4153346282659, 37.77874812639591⟩

/-- A distance function as computed by the external store for unit "mi"
(miles).  All three queries use unit "mi", so a single function models the
store's geodesic distance. -/
abbrev DistFn := Point → Point → ℚ

/-- Comparison of distance-annotated results by their distance. -/
def distLE (a b : RecordWithDistance) : Prop := a.dist ≤ b.dist

instance : DecidableRel distLE := fun a b => inferInstanceAs (Decidable (a.dist ≤ b.dist))

instance : IsTotal RecordWithDistance distLE := ⟨fun a b => le_total a.dist b.dist⟩

instance : IsTrans RecordWithDistance distLE := ⟨fun _ _ _ h h2 => le_trans h h2⟩

/-- Modelled from the spec: the store's `GetNearest` primitive — "given a
reference coordinate, an index, a maximum distance, a maximum result count,
and a distance unit, return the matching stored records ordered by
increasing distance from the reference point".  The actual geodesic
distance computation lives in the external store and is passed in as `d`;
matches are those within `maxDist`, ordered ascending by distance, capped
at `maxResults`. -/
def storeGetNearest (d : DistFn) (store : List Record) (ref : Point)
    (maxDist : ℚ) (maxResults : ℕ) : List RecordWithDistance :=
  (List.insertionSort distLE
    ((store.filter (fun rec => decide (d ref rec.geoSpatial ≤ maxDist))).map
      (fun rec => ⟨d ref rec.geoSpatial, rec⟩))).take maxResults

/-- Mode A (`getNearestWithDistances` in the source): `GetNearest` at the
fixed reference point with `MaxDist: 250`, `MaxResults: 1024`, `Unit: "mi"`;
the decoded rows keep the distance pairing. -/
def getNearestWithDistances (d : DistFn) (store : List Record) : List RecordWithDistance :=
  storeGetNearest d store refPoint 250 1024

/-- Mode B (`getNearest` in the source): `GetNearest` at the fixed reference
point with `MaxDist: 100`, `MaxResults: 1024`, `Unit: "mi"`, followed by the
`Do` step projecting each result to its `doc` field, so the decoded rows are
bare records with no distance field. -/
def getNearest (d : DistFn) (store : List Record) : List Record :=
  (storeGetNearest d store refPoint 100 1024).map RecordWithDistance.doc

/-- Mode C (`getNearestByName` in the source): the same query and `doc`
projection as Mode B (`MaxDist: 100`, `MaxResults: 1024`, `Unit: "mi"`),
then a `Filter` keeping the rows whose `name` equals the argument. -/
def getNearestByName (name : String) (d : DistFn) (store : List Record) : List Record :=
  ((storeGetNearest d store refPoint 100 1024).map RecordWithDistance.doc).filter
    (fun rec => rec.name == name)

/-- Distance function used to witness Mode A: every stored point is one
mile from the reference. -/
def dW1 : DistFn := fun _ _ => 1

/-- Distance function used to witness Modes B and C: points west of
longitude -123 (only "fifth") are 110 miles away, the rest one mile. -/
def dW2 : DistFn := fun _ q => if q.lon ≤ -123 then (110 : ℚ) else 1

/-- C1: with the seed set and the fixed reference point, Mode A at max
distance 250 miles and max results 1024 returns all five records (as a
permutation — the order is the distance order), each paired with a
non-negative distance, and the output is sorted ascending by distance.
The store's geodesic distance is external; it enters as `d`, constrained
only by the spec-asserted facts that it is non-negative and that every
seed point is within 250 miles of the reference. -/
theorem modeA_returns_all_five_sorted (d : DistFn)
    (hnn : ∀ rec ∈ records, 0 ≤ d refPoint rec.geoSpatial)
    (hin : ∀ rec ∈ records, d refPoint rec.geoSpatial ≤ 250) :
    ((getNearestWithDistances d records).map RecordWithDistance.doc).Perm records ∧
    (∀ x ∈ getNearestWithDistances d records, 0 ≤ x.dist) ∧
    List.Sorted distLE (getNearestWithDistances d records) := by
  have hfilter : records.filter (fun rec => decide (d refPoint rec.geoSpatial ≤ 250)) = records :=
    List.filter_eq_self.mpr (fun a ha => decide_eq_true (hin a ha))
  have hlen : (List.insertionSort distLE (records.map
      (fun rec => RecordWithDistance.mk (d refPoint rec.geoSpatial) rec))).length ≤ 1024 := by
    rw [List.length_insertionSort, List.length_map]
    norm_num [records]
  have hres : getNearestWithDistances d records =
      List.insertionSort distLE (records.map
        (fun rec => RecordWithDistance.mk (d refPoint rec.geoSpatial) rec)) := by
    simp only [getNearestWithDistances, storeGetNearest, hfilter]
    exact List.take_of_length_le hlen
  refine ⟨?_, ?_, ?_⟩
  · rw [hres]
    have hperm := (List.perm_insertionSort distLE (records.map
      (fun rec => RecordWithDistance.mk (d refPoint rec.geoSpatial) rec))).map RecordWithDistance.doc
    simpa [List.map_map, Function.comp] using hperm
  · intro x hx
    rw [hres] at hx
    have hx2 := (List.perm_insertionSort distLE _).mem_iff.mp hx
    obtain ⟨rec, hrec, rfl⟩ := List.mem_map.mp hx2
    exact hnn rec hrec
  · rw [hres]
    exact List.sorted_insertionSort distLE _

/-- Witness for C1: the hypotheses hold at the concrete distance function
`dW1` and the conclusion follows there. -/
theorem modeA_returns_all_five_sorted_witness :
    (∀ rec ∈ records, 0 ≤ dW1 refPoint rec.geoSpatial) ∧
    (∀ rec ∈ records, dW1 refPoint rec.geoSpatial ≤ 250) ∧
    ((getNearestWithDistances dW1 records).map RecordWithDistance.doc).Perm records :=
  ⟨fun _ _ => by norm_num [dW1], fun _ _ => by norm_num [dW1],
   (modeA_returns_all_five_sorted dW1 (fun _ _ => by norm_num [dW1])
     (fun _ _ => by norm_num [dW1])).1⟩

/-- C2: with the seed set and the fixed reference point, Mode B at max
distance 100 miles returns exactly the records "first" through "fourth"
(as a permutation) and "fifth" is not in the output; the output elements
are bare `Record`s — the distance pairing has been projected away by the
`doc` projection (visible in the result type of `getNearest`).  The
hypotheses record the spec-asserted distances: the first four seed points
are within 100 miles of the reference, "fifth" is not. -/
theorem modeB_excludes_fifth (d : DistFn)
    (h1 : d refPoint rec1.geoSpatial ≤ 100) (h2 : d refPoint rec2.geoSpatial ≤ 100)
    (h3 : d refPoint rec3.geoSpatial ≤ 100) (h4 : d refPoint rec4.geoSpatial ≤ 100)
    (h5 : ¬ d refPoint rec5.geoSpatial ≤ 100) :
    (getNearest d records).Perm [rec1, rec2, rec3, rec4] ∧ rec5 ∉ getNearest d records := by
  have hfilter : records.filter (fun rec => decide (d refPoint rec.geoSpatial ≤ 100)) =
      [rec1, rec2, rec3, rec4] := by
    simp [records, List.filter_cons, decide_eq_true h1, decide_eq_true h2, decide_eq_true h3,
      decide_eq_true h4, decide_eq_false h5]
  have hlen : (List.insertionSort distLE ([rec1, rec2, rec3, rec4].map
      (fun rec => RecordWithDistance.mk (d refPoint rec.geoSpatial) rec))).length ≤ 1024 := by
    rw [List.length_insertionSort, List.length_map]
    norm_num
  have hres : getNearest d records =
      (List.insertionSort distLE ([rec1, rec2, rec3, rec4].map
        (fun rec => RecordWithDistance.mk (d refPoint rec.geoSpatial) rec))).map
        RecordWithDistance.doc := by
    simp only [getNearest, storeGetNearest, hfilter]
    rw [List.take_of_length_le hlen]
  have hP : (getNearest d records).Perm [rec1, rec2, rec3, rec4] := by
    rw [hres]
    have hperm := (List.perm_insertionSort distLE ([rec1, rec2, rec3, rec4].map
      (fun rec => RecordWithDistance.mk (d refPoint rec.geoSpatial) rec))).map RecordWithDistance.doc
    simpa [List.map_map, Function.comp] using hperm
  exact ⟨hP, fun hmem => absurd (hP.mem_iff.mp hmem) (by simp [rec1, rec2, rec3, rec4, rec5])⟩

/-- Witness for C2: the hypotheses hold at the concrete distance function
`dW2` and the conclusion follows there. -/
theorem modeB_excludes_fifth_witness :
    (dW2 refPoint rec1.geoSpatial ≤ 100) ∧ ¬ (dW2 refPoint rec5.geoSpatial ≤ 100) ∧
    (getNearest dW2 records).Perm [rec1, rec2, rec3, rec4] :=
  ⟨by norm_num [dW2, rec1], by norm_num [dW2, rec5],
   (modeB_excludes_fifth dW2 (by norm_num [dW2, rec1]) (by norm_num [dW2, rec2])
     (by norm_num [dW2, rec3]) (by norm_num [dW2, rec4]) (by norm_num [dW2, rec5])).1⟩

/-- C3: with the seed set and the fixed reference point, Mode C with name
filter "first" and max distance 100 miles returns exactly one record, the
one named "first".  Only the spec-asserted fact that "first" is within 100
miles of the reference is needed: every other seed record is removed by
the name filter regardless of its distance. -/
theorem modeC_returns_only_first (d : DistFn) (h1 : d refPoint rec1.geoSpatial ≤ 100) :
    getNearestByName "first" d records = [rec1] := by
  have hlen : (List.insertionSort distLE
      ((records.filter (fun rec => decide (d refPoint rec.geoSpatial ≤ 100))).map
        (fun rec => RecordWithDistance.mk (d refPoint rec.geoSpatial) rec))).length ≤ 1024 := by
    rw [List.length_insertionSort, List.length_map]
    exact le_trans (List.length_filter_le _ _) (by norm_num [records])
  have hres : getNearestByName "first" d records =
      ((List.insertionSort distLE
        ((records.filter (fun rec => decide (d refPoint rec.geoSpatial ≤ 100))).map
          (fun rec => RecordWithDistance.mk (d refPoint rec.geoSpatial) rec))).map
        RecordWithDistance.doc).filter (fun rec => rec.name == "first") := by
    simp only [getNearestByName, storeGetNearest]
    rw [List.take_of_length_le hlen]
  have hperm := ((List.perm_insertionSort distLE
      ((records.filter (fun rec => decide (d refPoint rec.geoSpatial ≤ 100))).map
        (fun rec => RecordWithDistance.mk (d refPoint rec.geoSpatial) rec))).map
      RecordWithDistance.doc).filter (fun rec => rec.name == "first")
  have hmapped : (((records.filter (fun rec => decide (d refPoint rec.geoSpatial ≤ 100))).map
      (fun rec => RecordWithDistance.mk (d refPoint rec.geoSpatial) rec)).map
      RecordWithDistance.doc) =
      records.filter (fun rec => decide (d refPoint rec.geoSpatial ≤ 100)) := by
    rw [List.map_map]
    exact List.map_id _
  have htarget : (records.filter (fun rec => decide (d refPoint rec.geoSpatial ≤ 100))).filter
      (fun rec => rec.name == "first") = [rec1] := by
    rw [List.filter_filter]
    have hcomm : List.filter
        (fun a => (a.name == "first") && decide (d refPoint a.geoSpatial ≤ 100)) records =
        List.filter
        (fun a => decide (d refPoint a.geoSpatial ≤ 100) && (a.name == "first")) records := by
      apply List.filter_congr
      intro a _
      exact Bool.and_comm _ _
    rw [hcomm, ← List.filter_filter]
    have hname : records.filter (fun a => a.name == "first") = [rec1] := by
      simp [records, rec1, rec2, rec3, rec4, rec5]
    rw [hname]
    simp [List.filter_cons, decide_eq_true h1]
  rw [hres]
  apply List.perm_singleton.mp
  rw [hmapped, htarget] at hperm
  exact hperm

/-- Witness for C3: the hypothesis holds at the concrete distance function
`dW2` and the conclusion follows there. -/
theorem modeC_returns_only_first_witness :
    (dW2 refPoint rec1.geoSpatial ≤ 100) ∧ getNearestByName "first" dW2 records = [rec1] :=
  ⟨by norm_num [dW2, rec1], modeC_returns_only_first dW2 (by norm_num [dW2, rec1])⟩

/-- C9: Mode C refines Mode B — for every store state, distance function
and name argument, `getNearestByName` is exactly `getNearest` (the same
`GetNearest` call at the fixed reference point with `MaxDist: 100`,
`MaxResults: 1024`, `Unit: "mi"`, followed by the same `doc` projection)
composed with a filter keeping the records whose name equals the
argument, sublist order preserved. -/
theorem modeC_refines_modeB (d : DistFn) (store : List Record) (name : String) :
    getNearestByName name d store = (getNearest d store).filter (fun rec => rec.name == name) :=
  rfl

/-- An observable event of a program run: console prints (`fmt.Println`),
the schema and insert operations issued to the store, query runs, log
lines (`log.Println`) and fatal log lines (`log.Fatalln`).  `loggedJSON q k`
is the `printStructAsJSON` call for row `k` of query `q`
(0 = `getNearestWithDistances`, 1 = `getNearest`, 2 = `getNearestByName`);
`queryErrLogged q atRun` is the `log.Println(err)` for query `q`, at the
`Run` call when `atRun` is true and at the cursor decode otherwise. -/
inductive Event where
  | printed (s : String)
  | dropAttempt
  | tableCreateAttempt
  | indexCreateAttempt
  | insertAttempt (i : ℕ)
  | queryRun (q : ℕ)
  | queryErrLogged (q : ℕ) (atRun : Bool)
  | logged (msg : String)
  | loggedJSON (q : ℕ) (k : ℕ)
  | fatal (msg : String)
deriving DecidableEq

/-- Which calls into the external store fail in a given run.  `insertErr i`
is whether the insert of record `i` fails; `rowsA`/`rowsB`/`rowsC` are the
numbers of rows the driver delivers for each query when its run and decode
both succeed (the cursor decode is modelled from the spec as
all-or-nothing: on error the call's output is empty). -/
structure Faults where
  connectErr : Bool
  dropErr : Bool
  tableCreateErr : Bool
  indexCreateErr : Bool
  insertErr : ℕ → Bool
  runErrA : Bool
  decodeErrA : Bool
  runErrB : Bool
  decodeErrB : Bool
  runErrC : Bool
  decodeErrC : Bool
  rowsA : ℕ
  rowsB : ℕ
  rowsC : ℕ

/-- Trace of `createTable(session)` in the source, with a flag saying
whether it ended in `log.Fatalln`.  The error returned by the `TableDrop`
`Exec` is not bound by the source — `f.dropErr` therefore has no effect:
the drop is attempted and the run continues to `TableCreate` regardless,
with nothing logged.  `TableCreate` and `IndexCreate` failures are fatal. -/
def createTableRun (f : Faults) : List Event × Bool :=
  if f.tableCreateErr then
    ([Event.printed "create table and index", Event.dropAttempt, Event.tableCreateAttempt,
      Event.fatal "Cannot create table: "], true)
  else if f.indexCreateErr then
    ([Event.printed "create table and index", Event.dropAttempt, Event.tableCreateAttempt,
      Event.indexCreateAttempt, Event.fatal "Cannot create index: "], true)
  else
    ([Event.printed "create table and index", Event.dropAttempt, Event.tableCreateAttempt,
      Event.indexCreateAttempt, Event.printed ""], false)

/-- One iteration of the insert loop in `insertRecords`: the insert of
record `i` is attempted; if it fails the error is logged
(`log.Println`) and the loop moves on. -/
def insertStep (f : Faults) (i : ℕ) : List Event :=
  Event.insertAttempt i ::
    (if f.insertErr i then [Event.logged "Cannot create record: "] else [])

/-- Trace of `insertRecords(session)` in the source: a sequential pass over
the fixed seed list. -/
def insertRecordsRun (f : Faults) : List Event :=
  Event.printed "insert records" ::
    ((List.range records.length).flatMap (insertStep f) ++ [Event.printed ""])

/-- Trace of one query function in the source (`getNearestWithDistances`,
`getNearest` or `getNearestByName`, selected by `q`): print the header,
run the query; on run failure log and skip the decode; on decode failure
log; otherwise print each decoded row; finally print a blank line.  The
print loop runs zero times in both failure cases. -/
def queryTrace (header : String) (q : ℕ) (runErr decodeErr : Bool) (rows : ℕ) : List Event :=
  Event.printed header :: Event.queryRun q ::
    ((if runErr then [Event.queryErrLogged q true]
      else if decodeErr then [Event.queryErrLogged q false]
      else (List.range rows).map (Event.loggedJSON q)) ++ [Event.printed ""])

/-- Trace of `main` in the source: connect (fatal on failure), then
`createTable` (fatal on table or index creation failure), then
`insertRecords`, then the three queries in order, separated by sleeps
(not modelled — they produce no observable event). -/
def mainRun (f : Faults) : List Event :=
  if f.connectErr then [Event.fatal "Cannot connect: "]
  else if (createTableRun f).2 then (createTableRun f).1
  else
    (createTableRun f).1 ++ insertRecordsRun f ++
    queryTrace "Get nearest records with distances" 0 f.runErrA f.decodeErrA f.rowsA ++
    queryTrace "Get just the nearest records" 1 f.runErrB f.decodeErrB f.rowsB ++
    queryTrace "Chain some additional filters" 2 f.runErrC f.decodeErrC f.rowsC

theorem fatal_not_mem_queryTrace (header : String) (q : ℕ) (rE dE : Bool) (rows : ℕ)
    (m : String) : Event.fatal m ∉ queryTrace header q rE dE rows := by
  cases rE <;> cases dE <;> simp [queryTrace]

theorem fatal_not_mem_insertStep (f : Faults) (i : ℕ) (m : String) :
    Event.fatal m ∉ insertStep f i := by
  cases h : f.insertErr i <;> simp [insertStep, h]

theorem fatal_not_mem_insertRun (f : Faults) (m : String) :
    Event.fatal m ∉ insertRecordsRun f := by
  intro hm
  simp only [insertRecordsRun, List.mem_cons, List.mem_append, List.mem_flatMap] at hm
  rcases hm with h | (⟨i, _, hi⟩ | h)
  · exact Event.noConfusion h
  · exact fatal_not_mem_insertStep f i m hi
  · simp at h

theorem no_fatal_of_prereqs_ok (f : Faults) (hc : f.connectErr = false)
    (ht : f.tableCreateErr = false) (hix : f.indexCreateErr = false) (m : String) :
    Event.fatal m ∉ mainRun f := by
  intro hm
  simp only [mainRun, createTableRun, hc, ht, hix, Bool.false_eq_true, if_false,
    List.mem_append, List.mem_cons] at hm
  rcases hm with ((((h | h | h | h | h | h) | h) | h) | h) | h
  · exact Event.noConfusion h
  · exact Event.noConfusion h
  · exact Event.noConfusion h
  · exact Event.noConfusion h
  · exact Event.noConfusion h
  · simp at h
  · exact fatal_not_mem_insertRun f m h
  · exact fatal_not_mem_queryTrace _ _ _ _ _ m h
  · exact fatal_not_mem_queryTrace _ _ _ _ _ m h
  · exact fatal_not_mem_queryTrace _ _ _ _ _ m h

/-- C4: a run emits a fatal log if and only if the connection, the table
creation or the index creation fails; and whenever a fatal log is emitted
it is the last event of the run, so no step after the failing one is
executed.  Conversely (the right-to-left absence case), when none of the
three prerequisites fails, no failure of any other call produces a fatal
event. -/
theorem fatal_iff_prereq_failure (f : Faults) :
    ((∃ m, Event.fatal m ∈ mainRun f) ↔
      (f.connectErr = true ∨ f.tableCreateErr = true ∨ f.indexCreateErr = true)) ∧
    ((∃ m, Event.fatal m ∈ mainRun f) → ∃ l m, mainRun f = l ++ [Event.fatal m]) := by
  by_cases hc : f.connectErr = true
  · have hrun : mainRun f = [Event.fatal "Cannot connect: "] := by simp [mainRun, hc]
    refine ⟨⟨fun _ => Or.inl hc, fun _ => ⟨"Cannot connect: ", by simp [hrun]⟩⟩, ?_⟩
    exact fun _ => ⟨[], "Cannot connect: ", by simp [hrun]⟩
  · have hc2 : f.connectErr = false := by simpa using hc
    by_cases ht : f.tableCreateErr = true
    · have hrun : mainRun f = [Event.printed "create table and index", Event.dropAttempt,
          Event.tableCreateAttempt, Event.fatal "Cannot create table: "] := by
        simp [mainRun, createTableRun, hc2, ht]
      refine ⟨⟨fun _ => Or.inr (Or.inl ht),
        fun _ => ⟨"Cannot create table: ", by simp [hrun]⟩⟩, ?_⟩
      exact fun _ => ⟨[Event.printed "create table and index", Event.dropAttempt,
        Event.tableCreateAttempt], "Cannot create table: ", by rw [hrun]; rfl⟩
    · have ht2 : f.tableCreateErr = false := by simpa using ht
      by_cases hix : f.indexCreateErr = true
      · have hrun : mainRun f = [Event.printed "create table and index", Event.dropAttempt,
            Event.tableCreateAttempt, Event.indexCreateAttempt,
            Event.fatal "Cannot create index: "] := by
          simp [mainRun, createTableRun, hc2, ht2, hix]
        refine ⟨⟨fun _ => Or.inr (Or.inr hix),
          fun _ => ⟨"Cannot create index: ", by simp [hrun]⟩⟩, ?_⟩
        exact fun _ => ⟨[Event.printed "create table and index", Event.dropAttempt,
          Event.tableCreateAttempt, Event.indexCreateAttempt], "Cannot create index: ",
          by rw [hrun]; rfl⟩
      · have hix2 : f.indexCreateErr = false := by simpa using hix
        constructor
        · constructor
          · intro ⟨m, hm⟩
            exact absurd hm (no_fatal_of_prereqs_ok f hc2 ht2 hix2 m)
          · intro h
            rcases h with h | h | h
            · exact absurd h hc
            · exact absurd h ht
            · exact absurd h hix
        · intro ⟨m, hm⟩
          exact absurd hm (no_fatal_of_prereqs_ok f hc2 ht2 hix2 m)

/-- Fault assignment where only the connection fails; everything else
succeeds and the queries would deliver no rows. -/
def fConnOnly : Faults :=
  ⟨true, false, false, false, fun _ => false, false, false, false, false, false, false, 0, 0, 0⟩

/-- Witness for C4: at the fault assignment where only the connection
fails, a fatal event occurs and terminates the trace. -/
theorem fatal_iff_prereq_failure_witness :
    ∃ l m, mainRun fConnOnly = l ++ [Event.fatal m] :=
  (fatal_iff_prereq_failure fConnOnly).2
    ((fatal_iff_prereq_failure fConnOnly).1.mpr (Or.inl rfl))

/-- Distinguishes the events produced by a `log` call (`log.Println` or
`log.Fatalln`) from console prints and store operations. -/
def isLogCall : Event → Bool
  | Event.logged _ => true
  | Event.queryErrLogged _ _ => true
  | Event.loggedJSON _ _ => true
  | Event.fatal _ => true
  | _ => false

/-- Fault assignment where only the table drop fails. -/
def fDropOnly : Faults :=
  ⟨false, true, false, false, fun _ => false, false, false, false, false, false, false, 0, 0, 0⟩

/-- Counterexample to C5 as stated: in the run where only the table drop
fails, the drop failure is not logged — the whole trace contains no log
call at all (the source discards the error of the `TableDrop` `Exec`
without binding it), even though the drop was attempted and failed. -/
theorem dropFailure_not_logged :
    (mainRun fDropOnly).filter isLogCall = [] ∧ Event.dropAttempt ∈ mainRun fDropOnly :=
  ⟨rfl, by decide⟩

/-- C5 amended: a table-drop failure is silently ignored (nothing is
logged) and the program proceeds to table creation; the drop error is
never fatal — the run is entirely unaffected by whether the drop fails. -/
theorem tableDrop_failure_ignored (f : Faults) (hc : f.connectErr = false) :
    mainRun { f with dropErr := true } = mainRun { f with dropErr := false } ∧
    Event.dropAttempt ∈ mainRun f ∧ Event.tableCreateAttempt ∈ mainRun f := by
  refine ⟨rfl, ?_, ?_⟩ <;>
  · by_cases ht : f.tableCreateErr = true
    · simp [mainRun, createTableRun, hc, ht]
    · have ht2 : f.tableCreateErr = false := by simpa using ht
      by_cases hix : f.indexCreateErr = true
      · simp [mainRun, createTableRun, hc, ht2, hix]
      · have hix2 : f.indexCreateErr = false := by simpa using hix
        simp [mainRun, createTableRun, hc, ht2, hix2]

/-- Witness for the amended C5: at the fault assignment where only the
drop fails, table creation is still attempted. -/
theorem tableDrop_failure_ignored_witness :
    Event.dropAttempt ∈ mainRun fDropOnly ∧ Event.tableCreateAttempt ∈ mainRun fDropOnly :=
  ⟨(tableDrop_failure_ignored fDropOnly rfl).2.1,
   (tableDrop_failure_ignored fDropOnly rfl).2.2⟩

/-- Extracts the record index from an insert-attempt event. -/
def insertIdx : Event → Option ℕ
  | Event.insertAttempt i => some i
  | _ => none

theorem filterMap_insertIdx_flatMap (f : Faults) (l : List ℕ) :
    (l.flatMap (insertStep f)).filterMap insertIdx = l := by
  induction l with
  | nil => rfl
  | cons i t ih =>
    cases h : f.insertErr i <;>
      simp [List.flatMap_cons, List.filterMap_append, insertStep, h, insertIdx,
        List.filterMap_cons, ih]

theorem count_logged_flatMap (f : Faults) (l : List ℕ) :
    (l.flatMap (insertStep f)).count (Event.logged "Cannot create record: ") =
      (l.filter (fun i => f.insertErr i)).length := by
  induction l with
  | nil => rfl
  | cons i t ih =>
    cases h : f.insertErr i <;>
      simp [List.flatMap_cons, List.count_append, insertStep, h, List.count_cons,
        List.filter_cons, ih]

/-- C6: the Record Loader attempts every record of the fixed seed list in
list order — for every fault assignment, the sequence of insert attempts
in its trace is exactly the index sequence of the seed list; it never
emits a fatal event; and it logs one "Cannot create record" line per
failing insert, so a failed insert never prevents the remaining records
from being attempted. -/
theorem insert_best_effort (f : Faults) :
    (insertRecordsRun f).filterMap insertIdx = List.range records.length ∧
    (∀ m, Event.fatal m ∉ insertRecordsRun f) ∧
    (insertRecordsRun f).count (Event.logged "Cannot create record: ") =
      ((List.range records.length).filter (fun i => f.insertErr i)).length := by
  refine ⟨?_, fun m => fatal_not_mem_insertRun f m, ?_⟩
  · simp [insertRecordsRun, List.filterMap_cons, List.filterMap_append,
      filterMap_insertIdx_flatMap, insertIdx]
  · simp [insertRecordsRun, List.count_cons, List.count_append,
      count_logged_flatMap]

/-- Fault assignment where only the insert of the third record (index 2)
fails. -/
def fInsertOnly : Faults :=
  ⟨false, false, false, false, fun i => i == 2, false, false, false, false, false, false, 0, 0, 0⟩

/-- Witness for C6: even with the insert of record 2 failing, all five
inserts are attempted in order and exactly one failure is logged. -/
theorem insert_best_effort_witness :
    (insertRecordsRun fInsertOnly).filterMap insertIdx = List.range records.length ∧
    (insertRecordsRun fInsertOnly).count (Event.logged "Cannot create record: ") = 1 :=
  ⟨(insert_best_effort fInsertOnly).1, by rw [(insert_best_effort fInsertOnly).2.2]; rfl⟩

theorem queryRun_mem_queryTrace (header : String) (q : ℕ) (rE dE : Bool) (rows : ℕ) :
    Event.queryRun q ∈ queryTrace header q rE dE rows := by
  simp [queryTrace]

theorem loggedJSON_not_mem_insertRun (f : Faults) (q k : ℕ) :
    Event.loggedJSON q k ∉ insertRecordsRun f := by
  intro hm
  simp only [insertRecordsRun, List.mem_cons, List.mem_append, List.mem_flatMap] at hm
  rcases hm with h | (⟨i, _, hi⟩ | h)
  · exact Event.noConfusion h
  · cases hins : f.insertErr i <;> simp [insertStep, hins] at hi
  · simp at h

theorem loggedJSON_not_mem_queryTrace_err (header : String) (q' : ℕ) (rE dE : Bool)
    (rows q k : ℕ) (h : (rE || dE) = true) :
    Event.loggedJSON q k ∉ queryTrace header q' rE dE rows := by
  cases rE <;> cases dE <;> simp_all [queryTrace]

theorem loggedJSON_not_mem_queryTrace_ne (header : String) (q' : ℕ) (rE dE : Bool)
    (rows q k : ℕ) (h : q ≠ q') :
    Event.loggedJSON q k ∉ queryTrace header q' rE dE rows := by
  have h2 : q' ≠ q := Ne.symm h
  cases rE <;> cases dE <;> simp [queryTrace, h2]

theorem queryErr_mem_queryTrace (header : String) (q : ℕ) (rE dE : Bool) (rows : ℕ)
    (h : (rE || dE) = true) : ∃ b, Event.queryErrLogged q b ∈ queryTrace header q rE dE rows := by
  cases hr : rE
  · refine ⟨false, ?_⟩
    have hd : dE = true := by simpa [hr] using h
    simp [queryTrace, hr, hd]
  · exact ⟨true, by simp [queryTrace, hr]⟩

/-- C8: when the prerequisites succeed, all three queries are run, no
fatal event occurs, and for each query whose run or decode fails, the
error is logged for that query and its print loop emits nothing — while
the other two queries are still run.  The cursor decode is modelled from
the spec as all-or-nothing, so a decode failure leaves that call's output
empty. -/
theorem query_failure_isolated (f : Faults) (hc : f.connectErr = false)
    (ht : f.tableCreateErr = false) (hix : f.indexCreateErr = false) :
    (Event.queryRun 0 ∈ mainRun f ∧ Event.queryRun 1 ∈ mainRun f ∧
      Event.queryRun 2 ∈ mainRun f) ∧
    (∀ m, Event.fatal m ∉ mainRun f) ∧
    ((f.runErrA || f.decodeErrA) = true →
      (∃ b, Event.queryErrLogged 0 b ∈ mainRun f) ∧ ∀ k, Event.loggedJSON 0 k ∉ mainRun f) ∧
    ((f.runErrB || f.decodeErrB) = true →
      (∃ b, Event.queryErrLogged 1 b ∈ mainRun f) ∧ ∀ k, Event.loggedJSON 1 k ∉ mainRun f) ∧
    ((f.runErrC || f.decodeErrC) = true →
      (∃ b, Event.queryErrLogged 2 b ∈ mainRun f) ∧ ∀ k, Event.loggedJSON 2 k ∉ mainRun f) := by
  have hrun : mainRun f = [Event.printed "create table and index", Event.dropAttempt,
      Event.tableCreateAttempt, Event.indexCreateAttempt, Event.printed ""] ++
      insertRecordsRun f ++
      queryTrace "Get nearest records with distances" 0 f.runErrA f.decodeErrA f.rowsA ++
      queryTrace "Get just the nearest records" 1 f.runErrB f.decodeErrB f.rowsB ++
      queryTrace "Chain some additional filters" 2 f.runErrC f.decodeErrC f.rowsC := by
    simp [mainRun, createTableRun, hc, ht, hix]
  refine ⟨⟨?_, ?_, ?_⟩, fun m => no_fatal_of_prereqs_ok f hc ht hix m, ?_, ?_, ?_⟩
  · rw [hrun]; simp [List.mem_append, queryRun_mem_queryTrace]
  · rw [hrun]; simp [List.mem_append, queryRun_mem_queryTrace]
  · rw [hrun]; simp [List.mem_append, queryRun_mem_queryTrace]
  · intro hA
    constructor
    · obtain ⟨b, hb⟩ := queryErr_mem_queryTrace "Get nearest records with distances" 0
        f.runErrA f.decodeErrA f.rowsA hA
      exact ⟨b, by rw [hrun]; simp [List.mem_append, hb]⟩
    · intro k
      rw [hrun]
      intro hm
      simp only [List.mem_append] at hm
      rcases hm with (((h | h) | h) | h) | h
      · simp at h
      · exact loggedJSON_not_mem_insertRun f 0 k h
      · exact loggedJSON_not_mem_queryTrace_err _ _ _ _ _ _ _ hA h
      · exact loggedJSON_not_mem_queryTrace_ne _ _ _ _ _ _ _ (by omega) h
      · exact loggedJSON_not_mem_queryTrace_ne _ _ _ _ _ _ _ (by omega) h
  · intro hB
    constructor
    · obtain ⟨b, hb⟩ := queryErr_mem_queryTrace "Get just the nearest records" 1
        f.runErrB f.decodeErrB f.rowsB hB
      exact ⟨b, by rw [hrun]; simp [List.mem_append, hb]⟩
    · intro k
      rw [hrun]
      intro hm
      simp only [List.mem_append] at hm
      rcases hm with (((h | h) | h) | h) | h
      · simp at h
      · exact loggedJSON_not_mem_insertRun f 1 k h
      · exact loggedJSON_not_mem_queryTrace_ne _ _ _ _ _ _ _ (by omega) h
      · exact loggedJSON_not_mem_queryTrace_err _ _ _ _ _ _ _ hB h
      · exact loggedJSON_not_mem_queryTrace_ne _ _ _ _ _ _ _ (by omega) h
  · intro hC
    constructor
    · obtain ⟨b, hb⟩ := queryErr_mem_queryTrace "Chain some additional filters" 2
        f.runErrC f.decodeErrC f.rowsC hC
      exact ⟨b, by rw [hrun]; simp [List.mem_append, hb]⟩
    · intro k
      rw [hrun]
      intro hm
      simp only [List.mem_append] at hm
      rcases hm with (((h | h) | h) | h) | h
      · simp at h
      · exact loggedJSON_not_mem_insertRun f 2 k h
      · exact loggedJSON_not_mem_queryTrace_ne _ _ _ _ _ _ _ (by omega) h
      · exact loggedJSON_not_mem_queryTrace_ne _ _ _ _ _ _ _ (by omega) h
      · exact loggedJSON_not_mem_queryTrace_err _ _ _ _ _ _ _ hC h
/-- Fault assignment where only the first query's run fails; the other
queries would deliver three rows each. -/
def fQueryAOnly : Faults :=
  ⟨false, false, false, false, fun _ => false, true, false, false, false, false, false, 3, 3, 3⟩

/-- Witness for C8: with only query A's run failing, its error is logged,
it prints no row, and queries B and C still run. -/
theorem query_failure_isolated_witness :
    (∃ b, Event.queryErrLogged 0 b ∈ mainRun fQueryAOnly) ∧
    Event.queryRun 1 ∈ mainRun fQueryAOnly ∧ Event.queryRun 2 ∈ mainRun fQueryAOnly :=
  ⟨((query_failure_isolated fQueryAOnly rfl rfl rfl).2.2.1 rfl).1,
   (query_failure_isolated fQueryAOnly rfl rfl rfl).1.2.1,
   (query_failure_isolated fQueryAOnly rfl rfl rfl).1.2.2⟩

/-- The schema-relevant state of one table in the store: its indexes and
its stored documents. -/
structure TableState where
  indexes : List String
  docs : List Record
deriving DecidableEq

/-- The schema-relevant state of the store: the tables of the fixed
database, as a list of name/state pairs (a name may transiently appear
more than once in an arbitrary starting state). -/
structure DBState where
  tables : List (String × TableState)
deriving DecidableEq

/-- Modelled from the spec: `TableDrop` removes the table(s) of the given
name together with all their data. -/
def tableDrop (n : String) (s : DBState) : DBState :=
  ⟨s.tables.filter (fun t => !(t.1 == n))⟩

/-- Modelled from the spec: `TableCreate` adds a fresh empty table of the
given name, with no indexes and no documents. -/
def tableCreate (n : String) (s : DBState) : DBState :=
  ⟨s.tables ++ [(n, ⟨[], []⟩)]⟩

/-- Modelled from the spec: `IndexCreate` adds an index of the given name
on the table of the given name. -/
def indexCreate (n idx : String) (s : DBState) : DBState :=
  ⟨s.tables.map (fun t =>
    if t.1 == n then (t.1, ⟨t.2.indexes ++ [idx], t.2.docs⟩) else t)⟩

/-- Schema Setup (`createTable` in the source), success path: drop the
fixed table (the drop error is ignored), create it fresh, then create the
geospatial index on the designated field. -/
def createTable (s : DBState) : DBState :=
  indexCreate tableName indexName (tableCreate tableName (tableDrop tableName s))

theorem createTable_tables (s : DBState) :
    (createTable s).tables =
      s.tables.filter (fun t => !(t.1 == tableName)) ++
        [(tableName, TableState.mk [indexName] [])] := by
  simp only [createTable, indexCreate, tableCreate, tableDrop, List.map_append]
  congr 1
  · calc (s.tables.filter (fun t => !(t.1 == tableName))).map (fun t =>
          if t.1 == tableName then (t.1, TableState.mk (t.2.indexes ++ [indexName]) t.2.docs)
          else t) =
        (s.tables.filter (fun t => !(t.1 == tableName))).map id := by
          apply List.map_congr_left
          intro t htm
          have h2 : (t.1 == tableName) = false := by
            have := (List.mem_filter.mp htm).2
            rwa [Bool.not_eq_true'] at this
          simp [h2]
    _ = s.tables.filter (fun t => !(t.1 == tableName)) := List.map_id _

/-- C7: Schema Setup is idempotent in outcome — for every starting store
state, running it twice produces the same final state as running it once,
and after one run the store holds exactly one table of the fixed name,
carrying exactly one index (the geospatial one on the designated field)
and no documents (the run is destructive: any prior data of that table
was discarded by the drop). -/
theorem createTable_idempotent_outcome (s : DBState) :
    createTable (createTable s) = createTable s ∧
    (createTable s).tables.filter (fun t => t.1 == tableName) =
      [(tableName, TableState.mk [indexName] [])] := by
  constructor
  · have h1 : (createTable (createTable s)).tables = (createTable s).tables := by
      rw [createTable_tables (createTable s), createTable_tables s]
      rw [List.filter_append, List.filter_filter]
      simp [Bool.and_self]
    cases hcc : createTable (createTable s)
    cases hc : createTable s
    rw [hcc, hc] at h1
    simpa using h1
  · rw [createTable_tables s]
    rw [List.filter_append, List.filter_filter]
    have hnone : s.tables.filter (fun t => (t.1 == tableName) && !(t.1 == tableName)) = [] := by
      rw [List.filter_eq_nil_iff]
      intro t _
      simp
    simp [hnone]

/-- A starting state holding a stale `geospatial` table with an old index
and a leftover document, plus an unrelated table. -/
def sWitness : DBState :=
  ⟨[(tableName, ⟨["stale"], [rec1]⟩), ("other", ⟨[], []⟩)]⟩

/-- Witness for C7: at a concrete dirty starting state, a second run
changes nothing. -/
theorem createTable_idempotent_outcome_witness :
    createTable (createTable sWitness) = createTable sWitness :=
  (createTable_idempotent_outcome sWitness).1

/-- `printStructAsJSON` in the source.  `json.MarshalIndent` is external;
it is modelled as a function producing the marshalled bytes and an
optional error.  The source binds the error to `_`, discarding it, and
unconditionally passes the bytes to `log.Println` — one log line, no
other effect. -/
def printStructAsJSON {α : Type} (marshalIndent : α → String × Option String) (v : α) :
    List Event :=
  [Event.logged (marshalIndent v).1]

/-- C10: even when marshalling reports an error, `printStructAsJSON`
logs exactly one line carrying whatever bytes were produced, emits no
fatal event, and behaves identically to how it would had marshalling
reported no error — the error is silently discarded. -/
theorem printStructAsJSON_ignores_marshal_error {α : Type}
    (marshalIndent : α → String × Option String) (v : α) (e : String)
    (herr : (marshalIndent v).2 = some e) :
    printStructAsJSON marshalIndent v = [Event.logged (marshalIndent v).1] ∧
    (printStructAsJSON marshalIndent v).length = 1 ∧
    (∀ m, Event.fatal m ∉ printStructAsJSON marshalIndent v) ∧
    printStructAsJSON marshalIndent v =
      printStructAsJSON (fun x => ((marshalIndent x).1, none)) v := by
  refine ⟨rfl, rfl, ?_, rfl⟩
  intro m hm
  simp [printStructAsJSON] at hm

/-- A marshaller that always fails (as `json.MarshalIndent` does on an
unsupported value) while producing empty bytes. -/
def failingMarshal : Unit → String × Option String := fun _ => ("", some "unsupported type")

/-- Witness for C10: at the always-failing marshaller, the function still
logs exactly its one line. -/
theorem printStructAsJSON_ignores_marshal_error_witness :
    (failingMarshal ()).2 = some "unsupported type" ∧
    printStructAsJSON failingMarshal () = [Event.logged ""] :=
  ⟨rfl, (printStructAsJSON_ignores_marshal_error failingMarshal () "unsupported type" rfl).1⟩
